import Mathlib

/-!
Verification of the training-app engine of the quantum-object-trader
repository (`src/training/src/engine/progress.js`, `exercises.js`,
`markdown.js`, `ui.js` and the bootstrapper `main.js`).

The browser environment is embedded shallowly:
* `localStorage` is an association list from key strings to stored values;
  the only values the engine ever stores are JSON-encoded string arrays
  (the checked-control list) and plain strings (the per-item completion
  flags), so a stored value is `StorageVal.arr` or `StorageVal.str` and
  the `JSON.stringify`/`JSON.parse` round trip is the identity on them.
* The relevant live DOM is: the list of checkbox controls (in document
  order, as `querySelectorAll` returns them), the progress bar/text
  (both display the same rounded percentage, recorded as
  `displayedPercent`, with `none` standing for the `NaN%` shown when
  `totalItems = 0`), and the per-question feedback elements (an
  association list from element id to text/class).
* Network fetches are passed in as explicit outcomes (`FetchOutcome`).
-/

set_option autoImplicit false

namespace QuantumTrader

/-- A value held in `localStorage`: either a JSON array of identifier
strings (the `quantumTraderProgress` key) or a plain string (the
completion-flag keys, always `"completed"`). -/
inductive StorageVal where
  | arr (ids : List String)
  | str (s : String)
deriving Repr, DecidableEq

/-- Model of `localStorage` as an association list, first binding wins. -/
abbrev Storage := List (String × StorageVal)

/-- Model of `localStorage.getItem`. -/
def getItem : Storage → String → Option StorageVal
  | [], _ => none
  | (k', v) :: rest, k => if k' == k then some v else getItem rest k

/-- Model of `localStorage.setItem`: overwrite the existing binding or append. -/
def setItem : Storage → String → StorageVal → Storage
  | [], k, v => [(k, v)]
  | (k', v') :: rest, k, v =>
    if k' == k then (k, v) :: rest else (k', v') :: setItem rest k v

/-- One `input[type="checkbox"]` control of the rendered document. -/
structure Checkbox where
  id : String
  checked : Bool
deriving Repr, DecidableEq

/-- The module-level `progress` object of `progress.js`. -/
structure Progress where
  totalItems : Nat
  completedItems : Nat
deriving Repr, DecidableEq

/-- A feedback element's visible state: its `textContent` and its
`className`. -/
structure FeedbackEl where
  text : String
  className : String
deriving Repr, DecidableEq

/-- The page state touched by the engine. -/
structure St where
  checkboxes : List Checkbox
  storage : Storage
  progress : Progress
  displayedPercent : Option Nat
  feedbacks : List (String × FeedbackEl)
deriving Repr, DecidableEq

/-- The `localStorage` key of the checked-control list. -/
def progressKey : String := "quantumTraderProgress"

/-- Value of `Math.round (completed / total * 100)` for `total > 0`: the exact
rational `100 * c / t` rounded half up. -/
def jsRound (c t : Nat) : Nat := (200 * c + t) / (2 * t)

/-- Model of `document.getElementById` restricted to checkbox controls: the first
checkbox carrying the id. -/
def findCheckbox (cbs : List Checkbox) (i : String) : Option Checkbox :=
  cbs.find? (fun cb => cb.id == i)

/-- Set `checked = true` on the first checkbox carrying the id (the one
`getElementById` returns). -/
def setCheckedFirst : List Checkbox → String → List Checkbox
  | [], _ => []
  | cb :: rest, i =>
    if cb.id == i then { cb with checked := true } :: rest
    else cb :: setCheckedFirst rest i

/-- Source `countTotalItems` (progress.js:8): store the number of checkbox
controls in `progress.totalItems`. -/
def countTotalItems (st : St) : St :=
  { st with progress := { st.progress with totalItems := st.checkboxes.length } }

/-- The rounded percentage written to the bar and the text:
`none` models the `NaN` produced when `totalItems = 0`. -/
def percentOf (c t : Nat) : Option Nat :=
  if t == 0 then none else some (jsRound c t)

/-- Source `updateProgressBar` (progress.js:35): write
`Math.round(completedItems / totalItems * 100)` to the bar and the text. -/
def updateProgressBar (st : St) : St :=
  { st with displayedPercent := percentOf st.progress.completedItems st.progress.totalItems }

/-- The loop body of `loadProgress` (progress.js:17): for each saved
identifier in order, if a live checkbox carries it, check that box and
increment `completedItems`; otherwise ignore the identifier.  (The
lookup is `document.getElementById`; saved identifiers are matched
against the checkbox controls here because the persisted list is only
ever written by `saveProgress`, from checkbox ids.) -/
def loadItems : List String → St → St
  | [], st => st
  | itemId :: rest, st =>
    match findCheckbox st.checkboxes itemId with
    | some _ =>
      loadItems rest
        { st with
          checkboxes := setCheckedFirst st.checkboxes itemId,
          progress := { st.progress with completedItems := st.progress.completedItems + 1 } }
    | none => loadItems rest st

/-- Source `loadProgress` (progress.js:13): read the saved identifier list and
run the loop.  Only `saveProgress` ever writes the `quantumTraderProgress`
key, always as an array, so the parsed value is an array whenever the key
is present. -/
def loadProgress (st : St) : St :=
  match getItem st.storage progressKey with
  | some (.arr ids) => loadItems ids st
  | _ => st

/-- The ids of the currently checked checkboxes, in document order
(`querySelectorAll('input[type="checkbox"]:checked')` mapped to `id`). -/
def checkedIds (st : St) : List String :=
  (st.checkboxes.filter (fun cb => cb.checked)).map (fun cb => cb.id)

/-- Source `saveProgress` (progress.js:28): persist the full checked-id list. -/
def saveProgress (st : St) : St :=
  { st with storage := setItem st.storage progressKey (.arr (checkedIds st)) }

/-- Source `updateProgress` (progress.js:42): recompute `completedItems` by
counting checked controls, update the bar, then persist — in that
source order. -/
def updateProgress (st : St) : St :=
  let st1 :=
    { st with progress :=
        { st.progress with completedItems := (st.checkboxes.filter (fun cb => cb.checked)).length } }
  let st2 := updateProgressBar st1
  saveProgress st2

/-- One observable side effect of `updateProgress`, in the order the
source performs them. -/
inductive Effect where
  | recompute (n : Nat)
  | display (p : Option Nat)
  | persist (ids : List String)
deriving Repr, DecidableEq

/-- Again `updateProgress`, now recording the ordered trace of its effects
(the recomputation of the counter, the write to the visible percentage,
the write to durable storage) exactly as the source sequences them. -/
def updateProgressTrace (st : St) : St × List Effect :=
  let n := (st.checkboxes.filter (fun cb => cb.checked)).length
  let st1 := { st with progress := { st.progress with completedItems := n } }
  let p := percentOf st1.progress.completedItems st1.progress.totalItems
  let st2 := updateProgressBar st1
  let ids := checkedIds st2
  let st3 := saveProgress st2
  (st3, [Effect.recompute n, Effect.display p, Effect.persist ids])

/-- Source `resetProgress` (progress.js:49).  `confirmed` is the user's answer
to the `confirm` dialog; declining makes the whole call a no-op.  On
confirmation: `localStorage.clear()`, uncheck every checkbox, zero the
counter, refresh the bar. -/
def resetProgress (confirmed : Bool) (st : St) : St :=
  if confirmed then
    updateProgressBar
      { st with
        storage := [],
        checkboxes := st.checkboxes.map (fun cb => { cb with checked := false }),
        progress := { st.progress with completedItems := 0 } }
  else st

/-! ## Exercise/quiz checker (`exercises.js`) -/

/-- The outcome of a `fetch` (plus response decoding): success with a
value, or any non-success status / network failure. -/
inductive FetchOutcome (α : Type) where
  | ok (a : α)
  | err
deriving Repr, DecidableEq

/-- One option of a quiz question (`options[]` in the quiz JSON). -/
structure QOption where
  id : String
  text : String
deriving Repr, DecidableEq

/-- The `feedback` object of a quiz question. -/
structure QFeedback where
  correct : String
  incorrect : String
deriving Repr, DecidableEq

/-- One question of a quiz content file. -/
structure Question where
  id : String
  question : String
  options : List QOption
  correctAnswer : String
  feedback : QFeedback
deriving Repr, DecidableEq

/-- A quiz content file (`questions[]` present). -/
structure QuizData where
  title : String
  description : String
  questions : List Question
deriving Repr, DecidableEq

/-- Upsert into an association list (used for the feedback elements). -/
def setAssoc {α : Type} : List (String × α) → String → α → List (String × α)
  | [], k, v => [(k, v)]
  | (k', v') :: rest, k, v =>
    if k' == k then (k, v) :: rest else (k', v') :: setAssoc rest k v

/-- First binding of an association list. -/
def getAssoc {α : Type} : List (String × α) → String → Option α
  | [], _ => none
  | (k', v) :: rest, k => if k' == k then some v else getAssoc rest k

/-- Write `textContent` and `className` of a feedback element. -/
def setFeedback (st : St) (elemId text cls : String) : St :=
  { st with feedbacks := setAssoc st.feedbacks elemId ⟨text, cls⟩ }

/-- Read a feedback element's visible state. -/
def getFeedback (st : St) (elemId : String) : Option FeedbackEl :=
  getAssoc st.feedbacks elemId

/-- JS truthiness of `localStorage.getItem(k)`: `null` and the empty
string are falsy; the engine only ever stores the nonempty string
`"completed"` under flag keys, and an array's JSON text is nonempty. -/
def truthy : Option StorageVal → Bool
  | none => false
  | some (.str s) => !(s == "")
  | some (.arr _) => true

/-- Generic feedback shown when the quiz fetch, parse or lookup fails
(the `catch` of `checkAnswer`). -/
def answerErrorMsg : String := "Error checking answer. Please try again."

/-- Source `checkAnswer` (exercises.js:4).  The quiz-definition fetch for the
enclosing panel's quiz file is passed in as its outcome; the feedback
element is `questionId + "-feedback"`.  A missing question throws inside
the `try`, landing in the same generic-error branch as a failed fetch. -/
def checkAnswer (quizFetch : FetchOutcome QuizData) (questionId selectedAnswer : String)
    (st : St) : St :=
  let fbId := questionId ++ "-feedback"
  match quizFetch with
  | .err => setFeedback st fbId answerErrorMsg "feedback error"
  | .ok quizData =>
    match quizData.questions.find? (fun q => q.id == questionId) with
    | none => setFeedback st fbId answerErrorMsg "feedback error"
    | some question =>
      if selectedAnswer == question.correctAnswer then
        let st1 := setFeedback st fbId question.feedback.correct "feedback correct"
        let pk := "quiz_" ++ questionId
        if truthy (getItem st1.storage pk) then st1
        else
          updateProgressBar
            { st1 with
              storage := setItem st1.storage pk (.str "completed"),
              progress := { st1.progress with completedItems := st1.progress.completedItems + 1 } }
      else
        setFeedback st fbId question.feedback.incorrect "feedback incorrect"

/-! ### String scanning (`String.prototype.includes` and the
`checkConfig` regular expressions) -/

/-- Does `lit` occur literally at the head of `text`? -/
def litAt : List Char → List Char → Bool
  | [], _ => true
  | _ :: _, [] => false
  | a :: as, b :: bs => a == b && litAt as bs

/-- The scan behind `String.prototype.includes`. -/
def hasSubstrAux (lit : List Char) : List Char → Bool
  | [] => litAt lit []
  | c :: rest => litAt lit (c :: rest) || hasSubstrAux lit rest

/-- Model of `s.includes(sub)`. -/
def strContains (s sub : String) : Bool :=
  hasSubstrAux sub.data s.data

/-- Strip `lit` off the head of `text`, or fail. -/
def stripLit : List Char → List Char → Option (List Char)
  | [], text => some text
  | _ :: _, [] => none
  | a :: as, b :: bs => if a == b then stripLit as bs else none

/-- The characters of the regex class `\s` (the ASCII ones; the inputs
this engine scans contain no Unicode space characters). -/
def isJsWs (c : Char) : Bool :=
  c == ' ' || c == '\t' || c == '\n' || c == '\r' || c == '\x0b' || c == '\x0c'

/-- The regex tail `\s*(\d+)` at a fixed position: a greedy whitespace
skip, then a maximal nonempty digit run — the captured digits.  (`\s`
and `\d` are disjoint, so the greedy skip never needs backtracking.) -/
def digitsAfterWs (text : List Char) : Option (List Char) :=
  let rest := text.dropWhile isJsWs
  let ds := rest.takeWhile Char.isDigit
  if ds.isEmpty then none else some ds

/-- The regex tail `\s*(0\.\d+)` at a fixed position: greedy whitespace
skip, the literal `0.`, then a maximal nonempty digit run.  Returns the
fraction digits of the captured `0.ddd` literal. -/
def fracAfterWs (text : List Char) : Option (List Char) :=
  let rest := text.dropWhile isJsWs
  match stripLit ['0', '.'] rest with
  | none => none
  | some rest2 =>
    let ds := rest2.takeWhile Char.isDigit
    if ds.isEmpty then none else some ds

/-- Leftmost-match scan of `text.match(/key<tail>/)`: at each position
try the literal key followed by the tail pattern; on failure advance one
character, exactly as the regex engine does. -/
def scanKey (key : List Char) (tail : List Char → Option (List Char)) :
    List Char → Option (List Char)
  | [] => none
  | c :: cs =>
    match stripLit key (c :: cs) with
    | some rest =>
      match tail rest with
      | some ds => some ds
      | none => scanKey key tail cs
    | none => scanKey key tail cs

/-- Value of `parseFloat` on a captured digit run (always a plain decimal
integer, read exactly). -/
def natOfDigits (ds : List Char) : Nat :=
  ds.foldl (fun n c => 10 * n + (c.toNat - '0'.toNat)) 0

/-- Value of `parseFloat` on a captured `0.ddd` literal, as the exact rational
it denotes.  (The only observation `checkConfig` makes of this value is
`0 < v ∧ v ≤ 1`, on which exact rationals and IEEE doubles agree for
every digit string.) -/
def fracVal (ds : List Char) : ℚ :=
  (natOfDigits ds : ℚ) / (10 : ℚ) ^ ds.length

/-- The four extracted values of `checkConfig` (exercises.js:68);
`none` models the `NaN` of a failed match. -/
structure ConfigValues where
  position_size : Option Nat
  portfolio_exposure : Option ℚ
  daily_loss : Option Nat
  drawdown : Option ℚ
deriving Repr, DecidableEq

/-- The `values` object of `checkConfig`: pattern-match extraction of
the four numeric parameters. -/
def extractConfigValues (configText : String) : ConfigValues :=
  { position_size :=
      (scanKey "max_position_size:".data digitsAfterWs configText.data).map natOfDigits,
    portfolio_exposure :=
      (scanKey "max_portfolio_exposure:".data fracAfterWs configText.data).map fracVal,
    daily_loss :=
      (scanKey "daily_loss_limit:".data digitsAfterWs configText.data).map natOfDigits,
    drawdown :=
      (scanKey "max_drawdown:".data fracAfterWs configText.data).map fracVal }

/-- Range test `v > 0 && v <= hi` on a possibly-NaN number (`NaN` compares false). -/
def inRangeNat (v : Option Nat) (hi : Nat) : Bool :=
  match v with
  | none => false
  | some x => decide (0 < x) && decide (x ≤ hi)

/-- Range test `v > 0 && v <= hi` on a possibly-NaN rational. -/
def inRangeRat (v : Option ℚ) (hi : ℚ) : Bool :=
  match v with
  | none => false
  | some x => decide (0 < x) && decide (x ≤ hi)

/-- The range condition of exercises.js:88. -/
def valuesReasonable (v : ConfigValues) : Bool :=
  inRangeNat v.position_size 1000 && inRangeRat v.portfolio_exposure 1 &&
    inRangeNat v.daily_loss 10000 && inRangeRat v.drawdown 1

/-- Feedback text when placeholders remain. -/
def placeholderMsg : String := "Please replace all ??? with appropriate values."

/-- Feedback text when a required key is missing. -/
def incompleteMsg : String := "Configuration is incomplete. Make sure to include all required parameters."

/-- Feedback text on acceptance. -/
def configGoodMsg : String := "Configuration looks good! The values are within reasonable ranges."

/-- Feedback text when a value misses its range (or failed to parse). -/
def rangesMsg : String := "Some values appear to be outside reasonable ranges. Please review your configuration."

/-- Source `checkConfig` (exercises.js:53).  `configText` is the value of the
`adv-config-input` element; feedback goes to `adv-config-feedback`.
None of `includes`, `match`, `parseFloat` throws, so the `catch` branch
is unreachable. -/
def checkConfig (configText : String) (st : St) : St :=
  let fbId := "adv-config-feedback"
  let hasPositionLimits :=
    strContains configText "max_position_size" && strContains configText "max_portfolio_exposure"
  let hasLossLimits :=
    strContains configText "daily_loss_limit" && strContains configText "max_drawdown"
  let hasPlaceholders := strContains configText "???"
  let values := extractConfigValues configText
  if hasPlaceholders then
    setFeedback st fbId placeholderMsg "feedback incorrect"
  else if !hasPositionLimits || !hasLossLimits then
    setFeedback st fbId incompleteMsg "feedback incorrect"
  else if valuesReasonable values then
    let st1 := setFeedback st fbId configGoodMsg "feedback correct"
    if truthy (getItem st1.storage "config_exercise") then st1
    else
      updateProgressBar
        { st1 with
          storage := setItem st1.storage "config_exercise" (.str "completed"),
          progress := { st1.progress with completedItems := st1.progress.completedItems + 1 } }
  else
    setFeedback st fbId rangesMsg "feedback incorrect"

/-! ## Content loader / tutorial viewer (`ui.js`) -/

/-- A topic entry of the course manifest. -/
structure Topic where
  id : String
  title : String
  type : String
  content : String
deriving Repr, DecidableEq

/-- A level of the course manifest (only the fields `showTutorial`
reads). -/
structure Level where
  id : String
  topics : List Topic
deriving Repr, DecidableEq

/-- The course manifest. -/
structure Course where
  levels : List Level
deriving Repr, DecidableEq

/-- The `for … of courseData.levels` loop with `break` (ui.js:97):
the first topic with the id, scanning levels in order. -/
def findTopic (course : Course) (id : String) : Option Topic :=
  course.levels.findSome? (fun lv => lv.topics.find? (fun t => t.id == id))

/-- The manifest URL fetched by `showTutorial`. -/
def courseUrl : String := "./courses/quantum-object-trading/course.json"

/-- Path construction of ui.js:109. -/
def contentPath (t : Topic) : String :=
  "./courses/quantum-object-trading/content/"
    ++ (if t.type == "tutorial" then "tutorials" else "exercises")
    ++ "/" ++ t.content

/-- A fetched content file: its text, and whether `JSON.parse` accepts
it (consulted only on the quiz/exercise dispatch path). -/
structure ContentFile where
  raw : String
  parsesAsJson : Bool
deriving Repr, DecidableEq

/-- What a topic panel currently shows.  The success-path templating
(markdown rendering, quiz/exercise HTML generation) only ever runs on
the topic kind and the fetched text, so it is recorded as that pair;
no claim under verification inspects the generated HTML itself.
`errorMsg` is the inline `<p class="error">Failed to load content.
Please try again.</p>` of the `catch` branch. -/
inductive PanelContent where
  | initial
  | rendered (topicType : String) (raw : String)
  | errorMsg
deriving Repr, DecidableEq

/-- One `.tutorial-content` panel: its element id, its `style.display`,
its `dataset.loaded` flag, and its contents. -/
structure Panel where
  id : String
  display : String
  loaded : Bool
  content : PanelContent
deriving Repr, DecidableEq

/-- The viewer state: all topic panels, in document order. -/
structure UiState where
  panels : List Panel
deriving Repr, DecidableEq

/-- ui.js:78: hide every other tutorial panel. -/
def hideOthers (panels : List Panel) (id : String) : List Panel :=
  panels.map (fun p => if p.id == id then p else { p with display := "none" })

/-- Replace the first panel carrying the id. -/
def setPanel : List Panel → String → Panel → List Panel
  | [], _, _ => []
  | q :: rest, id, p => if q.id == id then p :: rest else q :: setPanel rest id p

/-- The fetch-and-render body of `showTutorial` (the `try`/`catch` of
ui.js:86-178), run only when the panel is not yet loaded.  Returns the
updated panel and the list of URLs fetched.  Every failure (manifest
fetch, topic lookup, content fetch, JSON parse) is caught and surfaced
as the inline error, leaving `loaded` unset; the flag is set on the
success path only. -/
def loadPanel (fetchCourse : FetchOutcome Course)
    (fetchFile : String → FetchOutcome ContentFile) (id : String) (p : Panel) :
    Panel × List String :=
  match fetchCourse with
  | .err => ({ p with content := .errorMsg }, [courseUrl])
  | .ok course =>
    match findTopic course id with
    | none => ({ p with content := .errorMsg }, [courseUrl])
    | some topic =>
      let path := contentPath topic
      match fetchFile path with
      | .err => ({ p with content := .errorMsg }, [courseUrl, path])
      | .ok file =>
        if topic.type == "tutorial" then
          ({ p with content := .rendered topic.type file.raw, loaded := true },
            [courseUrl, path])
        else if file.parsesAsJson then
          ({ p with content := .rendered topic.type file.raw, loaded := true },
            [courseUrl, path])
        else
          ({ p with content := .errorMsg }, [courseUrl, path])

/-- Source `showTutorial` (ui.js:72).  The two fetch environments are explicit
arguments; the returned list is the trace of URLs fetched during the
call.  A call on an id with no rendered panel would crash in the source
before the `try` (`content.dataset` on `null`); the bootstrapper renders
one panel per manifest topic, and no claim exercises that corner, so the
call is modelled as a no-op there. -/
def showTutorial (fetchCourse : FetchOutcome Course)
    (fetchFile : String → FetchOutcome ContentFile) (id : String) (st : UiState) :
    UiState × List String :=
  let panels := hideOthers st.panels id
  match panels.find? (fun p => p.id == id) with
  | none => ({ panels := panels }, [])
  | some p =>
    let (p1, trace) := if p.loaded then (p, []) else loadPanel fetchCourse fetchFile id p
    let p2 := { p1 with display := if p1.display == "block" then "none" else "block" }
    ({ panels := setPanel panels id p2 }, trace)

/-! ## Markdown renderer (`markdown.js`) -/

/-- The global replace `/\n\n+/g → '\n'` of markdown.js:56 on the
character list: every maximal run of k ≥ 2 newlines is contracted to a
single newline (the rightmost of the run survives the right-to-left
recursion; a run of length 1 is untouched, as the regex leaves it). -/
def collapseNlAux : List Char → List Char
  | [] => []
  | c :: cs =>
    let rest := collapseNlAux cs
    if c == '\n' && rest.head? == some '\n' then rest else c :: rest

/-- Step `html.replace(/\n\n+/g, '\n')` — the final normalization step of
`parseMarkdown` (markdown.js:56), applied to the whole HTML string. -/
def collapseNewlines (s : String) : String :=
  ⟨collapseNlAux s.data⟩

/-- Modelled from the spec: the markdown-to-HTML conversion ahead of the
normalization step is performed by the external Showdown converter and
highlight.js, dependencies loaded by the page and not part of this
repository's sources.  Spec §4.2: fenced code blocks are supported, and
the repository's own output extension (markdown.js:36, whose template is
in the source) re-emits each one as `<pre><code class="hljs">…</code>
</pre>` around the highlighted code; highlighting preserves the code's
characters (it only wraps tokens).  For a document that is a single
fenced code block with plain-text body `b`, the HTML reaching the
normalization step is therefore this string. -/
def renderFencedBlock (b : String) : String :=
  "<pre><code class=\"hljs\">" ++ b ++ "</code></pre>"

/-- Source `parseMarkdown` (markdown.js:2) on a document that is one fenced
code block: the (spec-modelled) conversion followed by the source's
final blank-line normalization. -/
def parseMarkdownFenced (b : String) : String :=
  collapseNewlines (renderFencedBlock b)

/-- First occurrence split: the text before the literal and the text
after it. -/
def splitAtLit (lit : List Char) : List Char → Option (List Char × List Char)
  | [] => if lit.isEmpty then some ([], []) else none
  | c :: cs =>
    match stripLit lit (c :: cs) with
    | some rest => some ([], rest)
    | none =>
      match splitAtLit lit cs with
      | some (pre, post) => some (c :: pre, post)
      | none => none

/-- The text of the first rendered code block of an HTML string: what
stands between `<pre><code class="hljs">` and the following
`</code></pre>`. -/
def codeBlockText? (s : String) : Option String :=
  match splitAtLit "<pre><code class=\"hljs\">".data s.data with
  | none => none
  | some (_, rest) =>
    match splitAtLit "</code></pre>".data rest with
    | none => none
    | some (code, _) => some ⟨code⟩

/-! ## Helper lemmas -/

theorem getItem_setItem_self (s : Storage) (k : String) (v : StorageVal) :
    getItem (setItem s k v) k = some v := by
  induction s with
  | nil => simp [setItem, getItem]
  | cons kv rest ih =>
    obtain ⟨k', v'⟩ := kv
    by_cases h : (k' == k) = true <;> simp [setItem, getItem, h, ih]

theorem getAssoc_setAssoc_self {α : Type} (l : List (String × α)) (k : String) (v : α) :
    getAssoc (setAssoc l k v) k = some v := by
  induction l with
  | nil => simp [setAssoc, getAssoc]
  | cons kv rest ih =>
    obtain ⟨k', v'⟩ := kv
    by_cases h : (k' == k) = true <;> simp [setAssoc, getAssoc, h, ih]

theorem findCheckbox_setCheckedFirst (cbs : List Checkbox) (j i : String) :
    (findCheckbox (setCheckedFirst cbs j) i).isSome = (findCheckbox cbs i).isSome := by
  induction cbs with
  | nil => rfl
  | cons cb rest ih =>
    by_cases hj : (cb.id == j) = true <;> by_cases hi : (cb.id == i) = true <;>
      simpa [setCheckedFirst, findCheckbox, List.find?, hj, hi] using ih

/-- The number of saved identifiers that correspond to a live checkbox
(counting list entries, as the `forEach` of `loadProgress` does). -/
def matchedCount (ids : List String) (cbs : List Checkbox) : Nat :=
  (ids.filter (fun i => (findCheckbox cbs i).isSome)).length

theorem matchedCount_setCheckedFirst (ids : List String) (cbs : List Checkbox) (j : String) :
    matchedCount ids (setCheckedFirst cbs j) = matchedCount ids cbs := by
  unfold matchedCount
  rw [List.filter_congr (fun x _ => findCheckbox_setCheckedFirst cbs j x)]

theorem loadItems_storage (ids : List String) (st : St) :
    (loadItems ids st).storage = st.storage := by
  induction ids generalizing st with
  | nil => rfl
  | cons i rest ih =>
    unfold loadItems
    cases h : findCheckbox st.checkboxes i <;> simp [h, ih]

theorem loadItems_totalItems (ids : List String) (st : St) :
    (loadItems ids st).progress.totalItems = st.progress.totalItems := by
  induction ids generalizing st with
  | nil => rfl
  | cons i rest ih =>
    unfold loadItems
    cases h : findCheckbox st.checkboxes i <;> simp [h, ih]

theorem loadItems_findCheckbox (ids : List String) (st : St) (i : String) :
    (findCheckbox (loadItems ids st).checkboxes i).isSome
      = (findCheckbox st.checkboxes i).isSome := by
  induction ids generalizing st with
  | nil => rfl
  | cons j rest ih =>
    unfold loadItems
    cases h : findCheckbox st.checkboxes j <;>
      simp [h, ih, findCheckbox_setCheckedFirst]

theorem matchedCount_loadItems (ids2 ids : List String) (st : St) :
    matchedCount ids2 (loadItems ids st).checkboxes = matchedCount ids2 st.checkboxes := by
  unfold matchedCount
  rw [List.filter_congr (fun x _ => loadItems_findCheckbox ids st x)]

theorem matchedCount_cons (i : String) (rest : List String) (cbs : List Checkbox) :
    matchedCount (i :: rest) cbs
      = (if (findCheckbox cbs i).isSome then 1 else 0) + matchedCount rest cbs := by
  by_cases h : (findCheckbox cbs i).isSome = true <;>
    simp [matchedCount, List.filter_cons, h]
  omega

theorem loadItems_completedItems (ids : List String) (st : St) :
    (loadItems ids st).progress.completedItems
      = st.progress.completedItems + matchedCount ids st.checkboxes := by
  induction ids generalizing st with
  | nil => simp [loadItems, matchedCount]
  | cons i rest ih =>
    unfold loadItems
    cases h : findCheckbox st.checkboxes i with
    | some cb =>
      simp [ih, matchedCount_setCheckedFirst, matchedCount_cons, h]
      omega
    | none =>
      simp [ih, matchedCount_cons, h]

/-! ## Claims -/

/-- C10: `loadProgress` adds to the in-memory completed counter rather
than resetting it: from any prior counter value, loading a persisted
list with `k` identifiers matching live controls leaves the counter at
`prior + k`, and a second consecutive `loadProgress` brings it to
`prior + 2 * k` (the loop credits every matching saved identifier
unconditionally, even when its checkbox is already checked). -/
theorem loadProgress_accumulates (st : St) (ids : List String)
    (h : getItem st.storage progressKey = some (.arr ids)) :
    (loadProgress st).progress.completedItems
        = st.progress.completedItems + matchedCount ids st.checkboxes
    ∧ (loadProgress (loadProgress st)).progress.completedItems
        = st.progress.completedItems + 2 * matchedCount ids st.checkboxes := by
  have h1 : loadProgress st = loadItems ids st := by
    unfold loadProgress
    rw [h]
  have h2 : loadProgress (loadProgress st) = loadItems ids (loadItems ids st) := by
    rw [h1]
    unfold loadProgress
    rw [loadItems_storage, h]
  rw [h2, h1]
  rw [loadItems_completedItems, loadItems_completedItems, loadItems_completedItems,
    matchedCount_loadItems]
  omega

/-- C10 witness: one checkbox `cb1`, persisted list `["cb1"]`, fresh
counter; one load yields 1, a second load yields 2 (not 1). -/
theorem loadProgress_accumulates_witness :
    (loadProgress
        { checkboxes := [⟨"cb1", false⟩],
          storage := [(progressKey, .arr ["cb1"])],
          progress := ⟨1, 0⟩, displayedPercent := none,
          feedbacks := [] }).progress.completedItems
      = 0 + matchedCount ["cb1"] [⟨"cb1", false⟩]
    ∧ (loadProgress (loadProgress
        { checkboxes := [⟨"cb1", false⟩],
          storage := [(progressKey, .arr ["cb1"])],
          progress := ⟨1, 0⟩, displayedPercent := none,
          feedbacks := [] })).progress.completedItems
      = 0 + 2 * matchedCount ["cb1"] [⟨"cb1", false⟩] :=
  loadProgress_accumulates
    { checkboxes := [⟨"cb1", false⟩],
      storage := [(progressKey, .arr ["cb1"])],
      progress := ⟨1, 0⟩, displayedPercent := none,
      feedbacks := [] } ["cb1"] (by decide)

/-- C2: from a fresh progress state over a document with `N > 0`
checkbox controls and a persisted list whose matching-control count is
`k`, counting the trackable items, loading, and updating the display
yields the percentage `round(k / N * 100)`. -/
theorem load_then_display_percentage (st : St) (N k : Nat) (ids : List String)
    (hfresh : st.progress.completedItems = 0)
    (hN : st.checkboxes.length = N) (hNpos : 0 < N)
    (hsaved : getItem st.storage progressKey = some (.arr ids))
    (hk : matchedCount ids st.checkboxes = k) :
    (updateProgressBar (loadProgress (countTotalItems st))).displayedPercent
      = some (jsRound k N) := by
  have hload : loadProgress (countTotalItems st) = loadItems ids (countTotalItems st) := by
    unfold loadProgress countTotalItems
    simp only
    rw [hsaved]
  rw [hload]
  unfold updateProgressBar percentOf
  rw [loadItems_completedItems, loadItems_totalItems]
  unfold countTotalItems
  simp only
  rw [hN, hfresh, hk]
  simp [Nat.pos_iff_ne_zero.mp hNpos]

/-- C2 witness: two checkboxes, one matching saved identifier: the
display reads `round(1/2 * 100) = 50`. -/
theorem load_then_display_percentage_witness :
    (updateProgressBar (loadProgress (countTotalItems
        { checkboxes := [⟨"cb1", false⟩, ⟨"cb2", false⟩],
          storage := [(progressKey, .arr ["cb1", "zzz"])],
          progress := ⟨0, 0⟩, displayedPercent := none,
          feedbacks := [] }))).displayedPercent = some (jsRound 1 2) :=
  load_then_display_percentage
    { checkboxes := [⟨"cb1", false⟩, ⟨"cb2", false⟩],
      storage := [(progressKey, .arr ["cb1", "zzz"])],
      progress := ⟨0, 0⟩, displayedPercent := none,
      feedbacks := [] } 2 1 ["cb1", "zzz"]
    rfl rfl (by decide) (by decide) (by decide)

/-- Discriminator for the three effect kinds of `updateProgress`. -/
def effectKind : Effect → Nat
  | .recompute _ => 0
  | .display _ => 1
  | .persist _ => 2

/-- A two-checkbox page with one box checked, exhibiting the effect
order of `updateProgress`. -/
def c7State : St :=
  { checkboxes := [⟨"cb1", true⟩, ⟨"cb2", false⟩],
    storage := [], progress := ⟨2, 0⟩, displayedPercent := none, feedbacks := [] }

/-- C7 counterexample: at a concrete state the effect trace of
`updateProgress` is recompute (kind 0), display (kind 1), persist
(kind 2) — the visible percentage is updated BEFORE the checked
identifiers are persisted (progress.js:44-45), so the code does not
perform the claimed recompute-persist-display order. -/
theorem updateProgress_not_persist_before_display :
    (updateProgressTrace c7State).2
      = [Effect.recompute 1, Effect.display (some 50), Effect.persist ["cb1"]]
    ∧ (updateProgressTrace c7State).2.map effectKind
        ≠ [effectKind (.recompute 1), effectKind (.persist ["cb1"]),
           effectKind (.display (some 50))] := by decide

/-- C7 amended: every `updateProgress` call first recomputes the
completed counter by counting the currently-checked controls (not by
incrementing the old value), then updates the visible percentage from
that recomputed counter, and then persists the full set of checked
identifiers — display before persist, the reverse of the claimed order
of the last two steps. -/
theorem updateProgress_effect_order (st : St) :
    updateProgressTrace st
      = (updateProgress st,
         [Effect.recompute (st.checkboxes.filter (fun cb => cb.checked)).length,
          Effect.display (percentOf (st.checkboxes.filter (fun cb => cb.checked)).length
            st.progress.totalItems),
          Effect.persist (checkedIds st)]) := rfl

/-- C8: declining the confirmation makes `resetProgress` a perfect
no-op; with confirmation, durable storage is wiped entirely (every key,
in particular every identifier of the persisted checked-controls list,
reads back `null`), every control is unchecked, and the completed
counter is zero. -/
theorem resetProgress_spec (st : St) :
    resetProgress false st = st
    ∧ (resetProgress true st).storage = []
    ∧ (resetProgress true st).checkboxes
        = st.checkboxes.map (fun cb => { cb with checked := false })
    ∧ (resetProgress true st).progress.completedItems = 0
    ∧ ∀ k : String, getItem (resetProgress true st).storage k = none :=
  ⟨rfl, rfl, rfl, rfl, fun _ => rfl⟩

/-- The quiz definition used to exhibit the reload loss (the shape of
the repository's quiz JSON files). -/
def c1Quiz : QuizData :=
  { title := "Risk basics", description := "One question.",
    questions :=
      [{ id := "q1", question := "Pick b.",
         options := [⟨"a", "first"⟩, ⟨"b", "second"⟩],
         correctAnswer := "b",
         feedback := ⟨"Nice!", "Try again."⟩ }] }

/-- A fresh session on a page whose rendered document has no checkbox
controls; the quiz markup provides an (empty) feedback element for
question `q1`. -/
def c1Session : St :=
  { checkboxes := [], storage := [], progress := ⟨0, 0⟩,
    displayedPercent := none, feedbacks := [("q1-feedback", ⟨"", ""⟩)] }

/-- A page reload carrying durable storage over: the document and the
module-level counters are rendered afresh, then the bootstrapper
(main.js:41) runs `countTotalItems()` followed by `loadProgress()`. -/
def reload (storageNow : Storage) (freshCheckboxes : List Checkbox) : St :=
  loadProgress (countTotalItems
    { checkboxes := freshCheckboxes, storage := storageNow,
      progress := ⟨0, 0⟩, displayedPercent := none, feedbacks := [] })

/-- Completion-flag keys of the persisted layout (spec §6): one key per
completed quiz question, one per completed exercise. -/
def isCompletionFlagKey (k : String) : Bool :=
  litAt "quiz_".data k.data || k == "config_exercise" || k == "algo_exercise"

/-- How many completed identifiers durable storage records: the entries
of the persisted checked-control list plus the completion-flag keys. -/
def storedCompletedCount (s : Storage) : Nat :=
  (match getItem s progressKey with
   | some (.arr ids) => ids.length
   | _ => 0)
  + (s.filter (fun kv => isCompletionFlagKey kv.1)).length

/-- C1 refutation — the code loses quiz credit over a reload: answering
`q1` correctly credits the counter (1) and records `quiz_q1` in durable
storage (1 completed identifier), but after a reload `loadProgress`
restores nothing: it reads only the checked-control list and never the
quiz/exercise completion flags, leaving the in-memory counter at 0
while storage still records 1 completed identifier. -/
theorem quiz_completion_lost_on_reload :
    (checkAnswer (.ok c1Quiz) "q1" "b" c1Session).progress.completedItems = 1
    ∧ storedCompletedCount (checkAnswer (.ok c1Quiz) "q1" "b" c1Session).storage = 1
    ∧ (reload (checkAnswer (.ok c1Quiz) "q1" "b" c1Session).storage []).progress.completedItems
        = 0
    ∧ (0 : Nat) ≠ 1 := by decide

/-- Evaluation of `checkAnswer` on a correct answer with the
per-question flag still unset. -/
theorem checkAnswer_correct_notflagged_eq
    (qd : QuizData) (q : Question) (qid c : String) (st : St)
    (hfind : qd.questions.find? (fun x => x.id == qid) = some q)
    (hcorr : q.correctAnswer = c)
    (hflag : truthy (getItem st.storage ("quiz_" ++ qid)) = false) :
    checkAnswer (.ok qd) qid c st =
      updateProgressBar
        { setFeedback st (qid ++ "-feedback") q.feedback.correct "feedback correct" with
          storage := setItem st.storage ("quiz_" ++ qid) (.str "completed"),
          progress := { st.progress with
            completedItems := st.progress.completedItems + 1 } } := by
  simp [checkAnswer, hfind, hcorr, setFeedback, hflag]

/-- Evaluation of `checkAnswer` on a correct answer with the
per-question flag already set: only the feedback element changes. -/
theorem checkAnswer_correct_flagged_eq
    (qd : QuizData) (q : Question) (qid c : String) (st : St)
    (hfind : qd.questions.find? (fun x => x.id == qid) = some q)
    (hcorr : q.correctAnswer = c)
    (hflag : truthy (getItem st.storage ("quiz_" ++ qid)) = true) :
    checkAnswer (.ok qd) qid c st
      = setFeedback st (qid ++ "-feedback") q.feedback.correct "feedback correct" := by
  simp [checkAnswer, hfind, hcorr, setFeedback, hflag]

/-- C3: answering a question with its correct option id shows that
question's configured correct feedback with the positive class; the
first success sets the per-question durable-storage flag, increments
the completed counter by exactly one, and refreshes the percentage
display; any call that finds the flag already set — in particular a
second call after success — changes neither the counter nor storage. -/
theorem checkAnswer_correct_spec
    (qd : QuizData) (q : Question) (qid c : String) (st : St)
    (hfind : qd.questions.find? (fun x => x.id == qid) = some q)
    (hcorr : q.correctAnswer = c)
    (hflag : getItem st.storage ("quiz_" ++ qid) = none) :
    getFeedback (checkAnswer (.ok qd) qid c st) (qid ++ "-feedback")
        = some ⟨q.feedback.correct, "feedback correct"⟩
    ∧ (checkAnswer (.ok qd) qid c st).progress.completedItems
        = st.progress.completedItems + 1
    ∧ getItem (checkAnswer (.ok qd) qid c st).storage ("quiz_" ++ qid)
        = some (.str "completed")
    ∧ (checkAnswer (.ok qd) qid c st).displayedPercent
        = percentOf (checkAnswer (.ok qd) qid c st).progress.completedItems
            (checkAnswer (.ok qd) qid c st).progress.totalItems
    ∧ (checkAnswer (.ok qd) qid c (checkAnswer (.ok qd) qid c st)).progress.completedItems
        = (checkAnswer (.ok qd) qid c st).progress.completedItems
    ∧ ∀ st2 : St, truthy (getItem st2.storage ("quiz_" ++ qid)) = true →
        (checkAnswer (.ok qd) qid c st2).progress.completedItems
            = st2.progress.completedItems
        ∧ (checkAnswer (.ok qd) qid c st2).storage = st2.storage := by
  have hf : truthy (getItem st.storage ("quiz_" ++ qid)) = false := by
    rw [hflag]; rfl
  have heq := checkAnswer_correct_notflagged_eq qd q qid c st hfind hcorr hf
  have hflagged : ∀ st2 : St, truthy (getItem st2.storage ("quiz_" ++ qid)) = true →
      (checkAnswer (.ok qd) qid c st2).progress.completedItems
          = st2.progress.completedItems
      ∧ (checkAnswer (.ok qd) qid c st2).storage = st2.storage := by
    intro st2 h2
    rw [checkAnswer_correct_flagged_eq qd q qid c st2 hfind hcorr h2]
    exact ⟨rfl, rfl⟩
  refine ⟨?_, ?_, ?_, ?_, ?_, hflagged⟩
  · rw [heq]
    simp [updateProgressBar, setFeedback, getFeedback, getAssoc_setAssoc_self]
  · rw [heq]; rfl
  · rw [heq]
    simp [updateProgressBar, setFeedback, getItem_setItem_self]
  · rw [heq]; rfl
  · have hset : truthy (getItem (checkAnswer (.ok qd) qid c st).storage
        ("quiz_" ++ qid)) = true := by
      rw [heq]
      simp [updateProgressBar, setFeedback, getItem_setItem_self, truthy]
    rw [checkAnswer_correct_flagged_eq qd q qid c _ hfind hcorr hset]
    rfl

/-- The question and quiz used to instantiate C3. -/
def c3Q : Question :=
  { id := "q1", question := "Pick b.",
    options := [⟨"a", "first"⟩, ⟨"b", "second"⟩],
    correctAnswer := "b", feedback := ⟨"Nice!", "Try again."⟩ }

/-- A one-question quiz file for the C3 witness. -/
def c3Quiz : QuizData :=
  { title := "Quiz", description := "", questions := [c3Q] }

/-- A fresh session for the C3 witness. -/
def c3St : St :=
  { checkboxes := [], storage := [], progress := ⟨0, 0⟩,
    displayedPercent := none, feedbacks := [("q1-feedback", ⟨"", ""⟩)] }

/-- C3 witness: flag unset at a concrete state, and the correct answer
displays the configured feedback and credits the counter once. -/
theorem checkAnswer_correct_spec_witness :
    getItem c3St.storage ("quiz_" ++ "q1") = none
    ∧ getFeedback (checkAnswer (.ok c3Quiz) "q1" "b" c3St) ("q1" ++ "-feedback")
        = some ⟨"Nice!", "feedback correct"⟩
    ∧ (checkAnswer (.ok c3Quiz) "q1" "b" c3St).progress.completedItems = 0 + 1 :=
  ⟨by decide,
    (checkAnswer_correct_spec c3Quiz c3Q "q1" "b" c3St (by decide) rfl (by decide)).1,
    (checkAnswer_correct_spec c3Quiz c3Q "q1" "b" c3St (by decide) rfl (by decide)).2.1⟩

theorem inRangeNat_iff (v : Option Nat) (hi : Nat) :
    inRangeNat v hi = true ↔ ∃ x, v = some x ∧ 0 < x ∧ x ≤ hi := by
  cases v <;> simp [inRangeNat]

theorem inRangeRat_iff (v : Option ℚ) (hi : ℚ) :
    inRangeRat v hi = true ↔ ∃ x, v = some x ∧ 0 < x ∧ x ≤ hi := by
  cases v <;> simp [inRangeRat]

theorem valuesReasonable_iff (v : ConfigValues) :
    valuesReasonable v = true
      ↔ ((∃ x, v.position_size = some x ∧ 0 < x ∧ x ≤ 1000)
        ∧ (∃ x : ℚ, v.portfolio_exposure = some x ∧ 0 < x ∧ x ≤ 1)
        ∧ (∃ x, v.daily_loss = some x ∧ 0 < x ∧ x ≤ 10000)
        ∧ (∃ x : ℚ, v.drawdown = some x ∧ 0 < x ∧ x ≤ 1)) := by
  simp [valuesReasonable, Bool.and_eq_true, inRangeNat_iff, inRangeRat_iff, and_assoc]

/-- C4 amended: for a text with no remaining placeholder and all four
required keys present, `checkConfig` shows the positive message exactly
when all four pattern extractions succeed and the extracted values lie
in (0,1000], (0,1], (0,10000], (0,1] respectively.  The exposure and
drawdown patterns only match literals of the form `0.ddd`, so an
extracted exposure can never equal 1: a text writing the boundary value
`max_portfolio_exposure: 1` has no extracted exposure and is rejected
(see the counterexample); the `1000`/`10000` boundaries are accepted. -/
theorem checkConfig_accepts_iff (t : String) (st : St)
    (hp : strContains t "???" = false)
    (h1 : strContains t "max_position_size" = true)
    (h2 : strContains t "max_portfolio_exposure" = true)
    (h3 : strContains t "daily_loss_limit" = true)
    (h4 : strContains t "max_drawdown" = true) :
    getFeedback (checkConfig t st) "adv-config-feedback"
        = some ⟨configGoodMsg, "feedback correct"⟩
      ↔ ((∃ x, (extractConfigValues t).position_size = some x ∧ 0 < x ∧ x ≤ 1000)
        ∧ (∃ x : ℚ, (extractConfigValues t).portfolio_exposure = some x ∧ 0 < x ∧ x ≤ 1)
        ∧ (∃ x, (extractConfigValues t).daily_loss = some x ∧ 0 < x ∧ x ≤ 10000)
        ∧ (∃ x : ℚ, (extractConfigValues t).drawdown = some x ∧ 0 < x ∧ x ≤ 1)) := by
  rw [← valuesReasonable_iff]
  unfold checkConfig
  simp only [hp, h1, h2, h3, h4, Bool.and_self, Bool.not_true, Bool.or_self,
    Bool.false_eq_true, if_false]
  cases hv : valuesReasonable (extractConfigValues t) with
  | false =>
    simp only [hv, Bool.false_eq_true, if_false]
    simp [getFeedback, setFeedback, getAssoc_setAssoc_self, rangesMsg, configGoodMsg]
  | true =>
    simp only [hv, if_true]
    split <;>
      simp [getFeedback, setFeedback, updateProgressBar, getAssoc_setAssoc_self]

/-- A session whose document holds the configuration exercise (its
feedback element rendered empty). -/
def configSession : St :=
  { checkboxes := [], storage := [], progress := ⟨0, 0⟩,
    displayedPercent := none, feedbacks := [("adv-config-feedback", ⟨"", ""⟩)] }

/-- A configuration text with every required key, no placeholder, the
in-range values 500/1000/0.2, and the boundary exposure written
exactly `1`. -/
def c4RejectText : String :=
  "max_position_size: 500\nmax_portfolio_exposure: 1\ndaily_loss_limit: 1000\nmax_drawdown: 0.2"

/-- C4 counterexample: the claim says boundary values such as portfolio
exposure exactly 1 are accepted; on this text all four keys are
present, no placeholder remains, the other three values sit strictly
inside their ranges, yet the exposure extraction fails (its pattern
matches only literals of the form `0.ddd`) and `checkConfig` rejects
the text with the "outside reasonable ranges" message. -/
theorem checkConfig_rejects_exposure_one :
    strContains c4RejectText "max_position_size" = true
    ∧ strContains c4RejectText "max_portfolio_exposure" = true
    ∧ strContains c4RejectText "daily_loss_limit" = true
    ∧ strContains c4RejectText "max_drawdown" = true
    ∧ strContains c4RejectText "???" = false
    ∧ (extractConfigValues c4RejectText).position_size = some 500
    ∧ (extractConfigValues c4RejectText).portfolio_exposure = none
    ∧ getFeedback (checkConfig c4RejectText configSession) "adv-config-feedback"
        = some ⟨rangesMsg, "feedback incorrect"⟩ := by decide

/-- An accepted configuration text, exercising the upper boundaries
1000 and 10000. -/
def c4AcceptText : String :=
  "max_position_size: 1000\nmax_portfolio_exposure: 0.5\ndaily_loss_limit: 10000\nmax_drawdown: 0.2"

/-- C4 witness: a concrete in-range text is accepted with the positive
message. -/
theorem checkConfig_accepts_iff_witness :
    getFeedback (checkConfig c4AcceptText configSession) "adv-config-feedback"
      = some ⟨configGoodMsg, "feedback correct"⟩ := by
  apply (checkConfig_accepts_iff c4AcceptText configSession (by decide) (by decide)
      (by decide) (by decide) (by decide)).mpr
  have h5 : natOfDigits ['5'] = 5 := rfl
  have h2 : natOfDigits ['2'] = 2 := rfl
  refine ⟨⟨1000, by decide, by decide, by decide⟩,
     ⟨fracVal ['5'], rfl, ?_, ?_⟩,
     ⟨10000, by decide, by decide, by decide⟩,
     ⟨fracVal ['2'], rfl, ?_, ?_⟩⟩
  · simp [fracVal, h5]
  · simp [fracVal, h5]
    norm_num
  · simp [fracVal, h2]
  · simp [fracVal, h2]
    norm_num

theorem find?_hideOthers (panels : List Panel) (id : String) :
    (hideOthers panels id).find? (fun q => q.id == id)
      = panels.find? (fun q => q.id == id) := by
  induction panels with
  | nil => rfl
  | cons q rest ih =>
    by_cases h : (q.id == id) = true <;>
      simp [hideOthers, List.find?, h] <;>
      simpa [hideOthers] using ih

theorem find?_setPanel (panels : List Panel) (id : String) (p p' : Panel)
    (hfind : panels.find? (fun q => q.id == id) = some p)
    (hp' : (p'.id == id) = true) :
    (setPanel panels id p').find? (fun q => q.id == id) = some p' := by
  induction panels with
  | nil => simp [List.find?] at hfind
  | cons q rest ih =>
    by_cases h : (q.id == id) = true
    · simp [setPanel, h, List.find?, hp']
    · simp only [List.find?, h] at hfind
      simp [setPanel, h, List.find?, ih hfind]

/-- C5: on a panel already marked loaded and currently open, a second
`showTutorial(id)` performs no fetch at all (empty fetch trace — the
loaded flag short-circuits the whole fetch branch) and toggles the
panel from open to closed, leaving its content and its loaded flag
untouched. -/
theorem showTutorial_loaded_toggles_without_fetch
    (fc : FetchOutcome Course) (ff : String → FetchOutcome ContentFile)
    (id : String) (st : UiState) (p : Panel)
    (hfind : st.panels.find? (fun q => q.id == id) = some p)
    (hloaded : p.loaded = true) (hopen : p.display = "block") :
    (showTutorial fc ff id st).2 = []
    ∧ (showTutorial fc ff id st).1.panels.find? (fun q => q.id == id)
        = some { p with display := "none" } := by
  have hpid : (p.id == id) = true := by
    have h := List.find?_some hfind
    simpa using h
  have hfind2 : (hideOthers st.panels id).find? (fun q => q.id == id) = some p := by
    rw [find?_hideOthers, hfind]
  have hmain : showTutorial fc ff id st
      = ({ panels := setPanel (hideOthers st.panels id) id { p with display := "none" } },
         []) := by
    simp only [showTutorial]
    rw [hfind2]
    simp [hloaded, hopen]
  rw [hmain]
  exact ⟨rfl, find?_setPanel _ _ p _ hfind2 (by simpa using hpid)⟩

/-- The panel and viewer state of the C5 witness. -/
def c5Panel : Panel :=
  { id := "t1", display := "block", loaded := true,
    content := .rendered "tutorial" "# Hello" }

/-- Viewer state of the C5 witness. -/
def c5Ui : UiState := { panels := [c5Panel] }

/-- C5 witness: even with both fetch environments failing, reopening a
loaded open panel fetches nothing and merely closes it. -/
theorem showTutorial_loaded_toggles_witness :
    (showTutorial .err (fun _ => .err) "t1" c5Ui).2 = []
    ∧ (showTutorial .err (fun _ => .err) "t1" c5Ui).1.panels.find?
        (fun q => q.id == "t1") = some { c5Panel with display := "none" } :=
  showTutorial_loaded_toggles_without_fetch .err (fun _ => .err) "t1" c5Ui c5Panel
    (by decide) rfl rfl

/-- C6: with the panel not yet loaded and the manifest fetched, a topic
missing from the manifest or a failing content-file fetch leaves the
inline error message in that panel with the loaded flag still unset
(so the next open retries the fetch), and the call completes normally
(the source catches the thrown error inside `showTutorial`; the model
is a total function), still toggling the panel's visibility. -/
theorem showTutorial_failure_inline_error
    (fc : FetchOutcome Course) (ff : String → FetchOutcome ContentFile)
    (id : String) (st : UiState) (p : Panel) (course : Course)
    (hfind : st.panels.find? (fun q => q.id == id) = some p)
    (hnl : p.loaded = false)
    (hc : fc = .ok course)
    (hfail : findTopic course id = none
      ∨ ∃ t, findTopic course id = some t ∧ ff (contentPath t) = .err) :
    (showTutorial fc ff id st).1.panels.find? (fun q => q.id == id)
      = some { id := p.id,
               display := if p.display == "block" then "none" else "block",
               loaded := false, content := .errorMsg } := by
  have hpid : (p.id == id) = true := by
    have h := List.find?_some hfind
    simpa using h
  have hfind2 : (hideOthers st.panels id).find? (fun q => q.id == id) = some p := by
    rw [find?_hideOthers, hfind]
  subst hc
  have herr : (loadPanel (.ok course) ff id p).1 = { p with content := .errorMsg } := by
    rcases hfail with hnone | ⟨t, ht, hferr⟩
    · simp [loadPanel, hnone]
    · simp [loadPanel, ht, hferr]
  have hmain : (showTutorial (.ok course) ff id st).1
      = { panels := setPanel (hideOthers st.panels id) id
            { p with content := .errorMsg,
                     display := if p.display == "block" then "none" else "block" } } := by
    simp only [showTutorial]
    rw [hfind2]
    simp [hnl, herr]
  rw [hmain]
  rw [find?_setPanel _ _ p _ hfind2 (by simpa using hpid)]
  simp [hnl]

/-- The unloaded panel of the C6 witness. -/
def c6Panel : Panel :=
  { id := "t9", display := "none", loaded := false, content := .initial }

/-- Viewer state of the C6 witness. -/
def c6Ui : UiState := { panels := [c6Panel] }

/-- C6 witness: the manifest loads but contains no topic `t9`; the
panel ends up showing the inline error, still unloaded, and opened. -/
theorem showTutorial_failure_inline_error_witness :
    (showTutorial (.ok ⟨[]⟩) (fun _ => .err) "t9" c6Ui).1.panels.find?
        (fun q => q.id == "t9")
      = some { id := "t9", display := "block", loaded := false,
               content := .errorMsg } :=
  showTutorial_failure_inline_error (.ok ⟨[]⟩) (fun _ => .err) "t9" c6Ui c6Panel ⟨[]⟩
    (by decide) rfl rfl (Or.inl rfl)

/-- C9 refutation — the blank-line normalization DOES alter code-block
content: a fenced code block whose body contains a blank line reaches
the final replace of markdown.js:56 as the highlighted block, and the
global rewrite of newline runs collapses the blank line inside the
block too, so the rendered code-block text is altered from the
highlighted text it had before the step.  (The repository's own
tutorial content ships such blocks, e.g. the python snippets of the
risk-metrics tutorial, so the alteration triggers on shipped pages.) -/
theorem codeblock_blank_line_collapsed :
    codeBlockText? (renderFencedBlock "a\n\nb") = some "a\n\nb"
    ∧ codeBlockText? (parseMarkdownFenced "a\n\nb") = some "a\nb"
    ∧ ("a\nb" : String) ≠ "a\n\nb" := by decide

end QuantumTrader
